import Mathlib

/-!
Verification development for the Samu event-registration application
(single source file `app.py`).

The Python code is shallowly embedded: each Flask handler becomes a pure
Lean function from its inputs (form fields, JSON body, session, limiter
state, database snapshot) to an outcome together with the updated state.
The SQLite database is modelled as an in-memory `Store` (two tables as
lists of rows plus the AUTOINCREMENT counters); timestamps are integers
(seconds); strings are Lean `String`s manipulated through their
character lists so that every definition evaluates by kernel reduction.
-/

set_option autoImplicit false

namespace Samu

/- ============================================================
   Python string primitives used by app.py
   ============================================================ -/

/-- The characters stripped by Python `str.strip()` with no argument
(the ASCII whitespace characters recognised by `str.isspace`). -/
def isPySpace (c : Char) : Bool :=
  c = ' ' || c = '\t' || c = '\n' || c = '\r' || c = '\x0b' || c = '\x0c'

/-- Python `s.strip()`: remove leading and trailing whitespace. -/
def pyStrip (s : String) : String :=
  ⟨((s.data.dropWhile isPySpace).reverse.dropWhile isPySpace).reverse⟩

/-- Python `str.isdigit` on a single character.  It is true for the ASCII
decimal digits and also for every other Unicode character with
`Numeric_Type=Digit`; of those extra characters we model the Latin-1
superscript digits U+00B9, U+00B2, U+00B3 (for which Python returns
`True` although they are not decimal digits: `isdecimal` is `False`). -/
def pyIsDigit (c : Char) : Bool :=
  c.isDigit || c = '¹' || c = '²' || c = '³'

/-- `''.join(filter(str.isdigit, s))` — the phone normalisation used at
app.py line 269 (and in the `init_db` migration at line 185). -/
def normalize (s : String) : String :=
  ⟨s.data.filter pyIsDigit⟩

/-- One SQL `REPLACE(t, x, '')`: remove every occurrence of `x`. -/
def removeChar (x : Char) (s : String) : String :=
  ⟨s.data.filter (fun c => c ≠ x)⟩

/-- The nested `REPLACE` expression of the duplicate pre-check query
(app.py lines 306-310): strips spaces, hyphens, dots and parentheses
from the stored `telefono` before comparing. -/
def sqlStrip (s : String) : String :=
  removeChar ')' (removeChar '(' (removeChar '.' (removeChar '-' (removeChar ' ' s))))

/-- Python `s.split(sep)` for a single-character separator, on character
lists (`"".split(sep) = [""]`, empty chunks kept). -/
def splitOnChar (sep : Char) : List Char → List (List Char)
  | [] => [[]]
  | c :: rest =>
    let r := splitOnChar sep rest
    if c = sep then [] :: r
    else
      match r with
      | [] => [[c]]
      | h :: t => (c :: h) :: t

/-- Numeric value of a list of decimal digit characters. -/
def digitsVal (l : List Char) : Nat :=
  l.foldl (fun acc c => 10 * acc + (c.toNat - 48)) 0

/-- No two adjacent underscores. -/
def noDoubleUnderscore : List Char → Bool
  | [] => true
  | [_] => true
  | a :: b :: rest => !(a = '_' && b = '_') && noDoubleUnderscore (b :: rest)

/-- The digit part accepted by Python `int(str)` after the optional sign:
a nonempty run of decimal digits in which single underscores may appear
strictly between digits.  (Unicode digits beyond ASCII are not
modelled.) -/
def pyIntCore (l : List Char) : Option Nat :=
  if !l.isEmpty
      && l.all (fun c => c.isDigit || c = '_')
      && l.head? != some '_'
      && l.getLast? != some '_'
      && noDoubleUnderscore l
  then some (digitsVal (l.filter Char.isDigit))
  else none

/-- Python `int(s)` for a string: strip whitespace, optional sign, then
digits (with underscore separators). `none` models `ValueError`. -/
def pyInt (s : String) : Option Int :=
  match (pyStrip s).data with
  | '+' :: rest => (pyIntCore rest).map (fun n => (n : Int))
  | '-' :: rest => (pyIntCore rest).map (fun n => -(n : Int))
  | l => (pyIntCore l).map (fun n => (n : Int))

/-- Truthiness of an optional form value (`request.form.get` returns
`None` when the field is absent; a present value is a string, falsy
exactly when empty). -/
def pyTruthyOpt : Option String → Bool
  | none => false
  | some s => s != ""

/-- Python `s.startswith('3')`: the first character is `'3'`. -/
def startsWith3 (s : String) : Bool :=
  s.data.head? == some '3'

/-- Python `s.lower()`, modelled for the ASCII range (the comparison it
feeds only involves the configured admin username). -/
def pyLower (s : String) : String :=
  ⟨s.data.map Char.toLower⟩

/-- Python `float(s)` restricted to plain decimal literals: optional
sign, then digits, optionally a dot and more digits, at least one digit
overall.  Other forms Python would accept (exponents, `inf`, `nan`,
underscores) are not modelled and yield `none` here although Python
would parse some of them, so the stored prezzo value can diverge from
Python on such inputs; no claim inspects the prezzo value, so this
partiality is immaterial to every property proved below. -/
def pyDecimal (s : String) : Option Rat :=
  let core : List Char → Option Rat := fun l =>
    match splitOnChar '.' l with
    | [ip] =>
      if !ip.isEmpty && ip.all Char.isDigit then some (digitsVal ip) else none
    | [ip, fp] =>
      if (!ip.isEmpty || !fp.isEmpty) && ip.all Char.isDigit && fp.all Char.isDigit
      then some ((digitsVal ip : Rat) + (digitsVal fp : Rat) / ((10 : Rat) ^ fp.length))
      else none
    | _ => none
  match (pyStrip s).data with
  | '+' :: rest => core rest
  | '-' :: rest => (core rest).map (fun q => -q)
  | l => core l

/- ============================================================
   Data model: the two tables created by init_db
   ============================================================ -/

/-- A row of the `eventi` table. -/
structure Evento where
  id : Nat
  nome : String
  descrizione : String
  prezzo : Rat
  data_evento : String
  data_creazione : String
  attivo : Bool
  deriving DecidableEq

/-- A row of the `registrazioni` table. -/
structure Registrazione where
  id : Nat
  evento_id : Nat
  nome : String
  cognome : String
  telefono : String
  eta_fascia : String
  orario_arrivo : String
  created_at : String
  deriving DecidableEq

/-- The database: both tables plus the AUTOINCREMENT counters. -/
structure Store where
  eventi : List Evento
  registrazioni : List Registrazione
  nextEventoId : Nat
  nextRegId : Nat
  deriving DecidableEq

/-- The closed set of age brackets, from the CHECK constraint of
`init_db` and the validation list at app.py line 258. -/
def fasce : List String := [">18", "18-21", "21-25", "25-30", "30+"]

/-- The constraints the schema built by `init_db` places on an insert
into `registrazioni`: the `INTEGER PRIMARY KEY` id must be fresh, the
`CHECK` constraint on `eta_fascia`, and the `FOREIGN KEY` from
`evento_id` to `eventi(id)` (PRAGMA foreign_keys is ON).  The three
indexes `init_db` creates — `idx_evento_id`, `idx_telefono_evento` on
`(telefono, evento_id)` and `idx_cognome_nome` — are plain
`CREATE INDEX` statements without the `UNIQUE` keyword, so they impose
no uniqueness constraint and contribute nothing here.  The NOT NULL
constraints hold trivially (all string fields are total). -/
def insertOk (store : Store) (r : Registrazione) : Bool :=
  store.registrazioni.all (fun r2 => r2.id != r.id)
    && decide (r.eta_fascia ∈ fasce)
    && store.eventi.any (fun e => e.id == r.evento_id)

/- ============================================================
   The registration handler (app.py lines 228-338, POST branch)
   ============================================================ -/

/-- Outcome of a POST to `/register`; each error constructor stands for
one rendered error message, `success` for the success message. -/
inductive RegOutcome where
  | noEvent
  | errNome
  | errCognome
  | errTelefonoReq
  | errEta
  | errOrarioReq
  | errPrivacy
  | errTelefonoStart
  | errTelefonoLen
  | errOrario
  | errEventoNonValido
  | errDuplicate
  | success
  deriving DecidableEq

/-- The rendered message of each outcome, verbatim from app.py. -/
def RegOutcome.message : RegOutcome → String
  | .noEvent => "Nessun evento disponibile al momento."
  | .errNome => "Nome obbligatorio (max 100 caratteri)."
  | .errCognome => "Cognome obbligatorio (max 100 caratteri)."
  | .errTelefonoReq => "Numero di telefono obbligatorio."
  | .errEta => "Fascia d\x27età obbligatoria."
  | .errOrarioReq => "Orario di arrivo obbligatorio."
  | .errPrivacy => "\xc8 necessario accettare l\x27informativa sulla privacy per completare la registrazione."
  | .errTelefonoStart => "Il numero di telefono deve iniziare con 3."
  | .errTelefonoLen => "Il numero di telefono deve avere tra 9 e 15 cifre."
  | .errOrario => "Orario non valido. Usa il formato HH:MM (es. 14:30)."
  | .errEventoNonValido => "Evento non valido o non più disponibile."
  | .errDuplicate => "Sei già registrato per questo evento."
  | .success => "Registrazione completata con successo!"

/-- The POSTed registration form (`request.form`). -/
structure RegForm where
  nome : String
  cognome : String
  telefono : String
  eta_fascia : String
  orario_arrivo : String
  privacy_consent : Option String
  deriving DecidableEq

/-- The arrival-time validation of app.py lines 278-290: split on `:`,
require exactly two parts, parse both with `int`, require hour in
[0,23] and minute in [0,59]. -/
def validOrario (orario : String) : Bool :=
  match splitOnChar ':' orario.data with
  | [hs, ms] =>
    match pyInt ⟨hs⟩, pyInt ⟨ms⟩ with
    | some hour, some minute =>
      decide (0 ≤ hour) && decide (hour ≤ 23) && decide (0 ≤ minute) && decide (minute ≤ 59)
    | _, _ => false
  | _ => false

/-- The POST branch of the `register` handler (app.py lines 228-338).
The active event is the `SELECT ... WHERE attivo = 1 ... LIMIT 1` row,
modelled as the first active event of the stored list (the ORDER BY
only chooses among active rows and no claim depends on which one).
`created_at` stands for `now_italia().strftime(...)`.  The final
`insertOk` test models the INSERT against the schema constraints; its
failure is the `except sqlite3.IntegrityError` branch, which renders
the duplicate-registration message. -/
def register (store : Store) (form : RegForm) (created_at : String) :
    RegOutcome × Store :=
  let evento_attivo := store.eventi.find? (fun e => e.attivo)
  let nome := pyStrip form.nome
  let cognome := pyStrip form.cognome
  let telefono := pyStrip form.telefono
  let eta_fascia := pyStrip form.eta_fascia
  let orario_arrivo := pyStrip form.orario_arrivo
  match evento_attivo with
  | none => (.noEvent, store)
  | some ev =>
    if nome = "" ∨ nome.length > 100 then (.errNome, store)
    else if cognome = "" ∨ cognome.length > 100 then (.errCognome, store)
    else if telefono = "" then (.errTelefonoReq, store)
    else if eta_fascia = "" ∨ eta_fascia ∉ fasce then (.errEta, store)
    else if orario_arrivo = "" then (.errOrarioReq, store)
    else if pyTruthyOpt form.privacy_consent = false then (.errPrivacy, store)
    else
      let telefono_pulito := normalize telefono
      if startsWith3 telefono_pulito = false then (.errTelefonoStart, store)
      else if telefono_pulito.length < 9 ∨ telefono_pulito.length > 15 then
        (.errTelefonoLen, store)
      else if validOrario orario_arrivo = false then (.errOrario, store)
      else if store.eventi.any (fun e => e.id == ev.id && e.attivo) = false then
        (.errEventoNonValido, store)
      else if 0 < store.registrazioni.countP
          (fun r => sqlStrip r.telefono == telefono_pulito && r.evento_id == ev.id) then
        (.errDuplicate, store)
      else
        let newReg : Registrazione :=
          { id := store.nextRegId, evento_id := ev.id, nome := nome, cognome := cognome
            telefono := telefono_pulito, eta_fascia := eta_fascia
            orario_arrivo := orario_arrivo, created_at := created_at }
        if insertOk store newReg then
          (.success,
            { store with
                registrazioni := store.registrazioni ++ [newReg]
                nextRegId := store.nextRegId + 1 })
        else (.errDuplicate, store)

/-- Comparison definition for the corrected C5, following the amended
claim's words: the first violated validation rule, checked in the
order the code checks them — event availability, nome, cognome, phone
presence, age bracket, arrival-time presence, consent, phone format
(starts with 3, then 9-15 digits), and the arrival-time HH:MM parse
last.  It is computed from the active-event lookup result and the
submitted form alone: validation consults no other storage data.
`none` means every validation rule passes. -/
def firstValidationError (activeEvent : Option Evento) (form : RegForm) :
    Option RegOutcome :=
  match activeEvent with
  | none => some .noEvent
  | some _ =>
    if pyStrip form.nome = "" ∨ (pyStrip form.nome).length > 100 then some .errNome
    else if pyStrip form.cognome = "" ∨ (pyStrip form.cognome).length > 100 then
      some .errCognome
    else if pyStrip form.telefono = "" then some .errTelefonoReq
    else if pyStrip form.eta_fascia = "" ∨ pyStrip form.eta_fascia ∉ fasce then
      some .errEta
    else if pyStrip form.orario_arrivo = "" then some .errOrarioReq
    else if pyTruthyOpt form.privacy_consent = false then some .errPrivacy
    else if startsWith3 (normalize (pyStrip form.telefono)) = false then
      some .errTelefonoStart
    else if (normalize (pyStrip form.telefono)).length < 9
        ∨ (normalize (pyStrip form.telefono)).length > 15 then
      some .errTelefonoLen
    else if validOrario (pyStrip form.orario_arrivo) = false then some .errOrario
    else none

/- ============================================================
   Login rate limiter (app.py lines 49-76)
   ============================================================ -/

/-- The `failed_login_attempts` defaultdict: an association list from
source address to its list of failure timestamps (integer seconds).
A missing key reads as the empty list, as with `defaultdict(list)`. -/
abbrev RLState := List (String × List Int)

def MAX_LOGIN_ATTEMPTS : Nat := 5

def LOGIN_LOCKOUT_TIME : Int := 300

/-- `failed_login_attempts[ip]` as a read: first entry with this key,
defaulting to the empty list. -/
def lookupRL (st : RLState) (ip : String) : List Int :=
  match st.find? (fun e => e.1 == ip) with
  | some e => e.2
  | none => []

/-- `ip in failed_login_attempts`. -/
def hasKey (st : RLState) (ip : String) : Bool :=
  st.any (fun e => e.1 == ip)

/-- `failed_login_attempts[ip] = l`: replace the entry if the key is
present, otherwise append a new entry. -/
def setRL (st : RLState) (ip : String) (l : List Int) : RLState :=
  if hasKey st ip then st.map (fun e => if e.1 == ip then (ip, l) else e)
  else st ++ [(ip, l)]

/-- `check_rate_limit(ip)` (app.py lines 55-65): prune timestamps older
than the lockout window, store the pruned list back, then either allow
(below the threshold) or deny with the remaining wait
`LOGIN_LOCKOUT_TIME - int(now - attempts[0])` (on integer timestamps
`int` truncation is the identity). -/
def check_rate_limit (st : RLState) (now : Int) (ip : String) :
    (Bool × Int) × RLState :=
  let pruned := (lookupRL st ip).filter (fun ts => now - ts < LOGIN_LOCKOUT_TIME)
  let st1 := setRL st ip pruned
  if MAX_LOGIN_ATTEMPTS ≤ pruned.length then
    ((false, LOGIN_LOCKOUT_TIME - (now - pruned.headI)), st1)
  else ((true, 0), st1)

/-- `record_failed_login(ip)` (app.py lines 67-70). -/
def record_failed_login (st : RLState) (now : Int) (ip : String) : RLState :=
  setRL st ip (lookupRL st ip ++ [now])

/-- `clear_failed_logins(ip)` (app.py lines 72-76): delete the entry for
this address if present. -/
def clear_failed_logins (st : RLState) (ip : String) : RLState :=
  if hasKey st ip then st.filter (fun e => e.1 != ip) else st

/- ============================================================
   Admin login (app.py lines 343-380, POST branch)
   ============================================================ -/

/-- The two environment-derived credentials behind the single-user
`USERS` table (`ADMIN_USERNAME`, `ADMIN_PASSWORD`; defaults "admin" and
"admin123"). -/
structure LoginEnv where
  adminUsername : String
  adminPassword : String
  deriving DecidableEq

inductive LoginResult where
  | rateLimited (wait : Int)
  | missingFields
  | badCredentials
  | success
  deriving DecidableEq

/-- The POST branch of `admin_login`: rate-limit gate first (a denial
returns at once, before any `record_failed_login`); then empty-field
check; then a case-insensitive username match over `USERS` followed by
an exact password comparison.  Success clears the failure record for
the address; every failed credential check appends one. -/
def admin_login_post (env : LoginEnv) (st : RLState) (now : Int) (ip : String)
    (username password : String) : LoginResult × RLState :=
  let res := check_rate_limit st now ip
  let st1 := res.2
  if res.1.1 = false then (.rateLimited res.1.2, st1)
  else
    let username := pyStrip username
    let password := pyStrip password
    if username = "" ∨ password = "" then (.missingFields, record_failed_login st1 now ip)
    else if pyLower env.adminUsername = pyLower username ∧ env.adminPassword = password
    then (.success, clear_failed_logins st1 ip)
    else (.badCredentials, record_failed_login st1 now ip)

/- ============================================================
   Session-gated admin operations
   ============================================================ -/

/-- The session keys consulted by the admin handlers. -/
structure Session where
  user_logged_in : Bool
  user_role : String
  deriving DecidableEq

/-- Whether a year is a leap year (Gregorian, as `datetime` uses). -/
def isLeap (y : Nat) : Bool :=
  (y % 4 == 0 && y % 100 != 0) || y % 400 == 0

def daysInMonth (y m : Nat) : Nat :=
  if m = 2 then (if isLeap y then 29 else 28)
  else if m = 4 ∨ m = 6 ∨ m = 9 ∨ m = 11 then 30
  else 31

/-- `datetime.strptime(s, "%Y-%m-%d")` succeeding: `%Y` matches exactly
four digits, `%m` and `%d` one or two digits, the hyphens are literal,
the whole string is consumed, and the resulting `datetime(y, m, d)`
needs `1 ≤ y`, `1 ≤ m ≤ 12` and a day within the month. -/
def validDate (s : String) : Bool :=
  match splitOnChar '-' s.data with
  | [ys, ms, ds] =>
    ys.length == 4 && ys.all Char.isDigit
      && (ms.length == 1 || ms.length == 2) && ms.all Char.isDigit
      && (ds.length == 1 || ds.length == 2) && ds.all Char.isDigit
      &&
      (let y := digitsVal ys
       let m := digitsVal ms
       let d := digitsVal ds
       decide (1 ≤ y) && decide (1 ≤ m) && decide (m ≤ 12)
         && decide (1 ≤ d) && decide (d ≤ daysInMonth y m))
  | _ => false

/-- `prezzo = float(prezzo_str) if prezzo_str else 0.0`, with the
`except ValueError` branch and the negative clamp (app.py lines
673-678). -/
def parsePrezzo (s : String) : Rat :=
  if s = "" then 0
  else
    match pyDecimal s with
    | some q => if q < 0 then 0 else q
    | none => 0

inductive CreaEventoResult where
  | redirectLogin
  | errNome
  | errData
  | errDataFormat
  | redirectDashboard
  deriving DecidableEq

/-- The POST branch of `crea_evento` (app.py lines 655-718): session
gate, name validation, price parse, event-date validation, then
`UPDATE eventi SET attivo = 0 WHERE attivo = 1` followed by the insert
of the new event with `attivo = 1`.  `data_creazione` stands for
`now_italia().strftime(...)`. -/
def crea_evento (sess : Session) (store : Store)
    (nome descrizione prezzo_str data_evento data_creazione : String) :
    CreaEventoResult × Store :=
  if sess.user_logged_in = false then (.redirectLogin, store)
  else if sess.user_role ≠ "admin" then (.redirectLogin, store)
  else
    let nome := pyStrip nome
    let descrizione := pyStrip descrizione
    let prezzo_str := pyStrip prezzo_str
    if nome = "" ∨ nome.length > 200 then (.errNome, store)
    else
      let prezzo := parsePrezzo prezzo_str
      let data_evento := pyStrip data_evento
      if data_evento = "" then (.errData, store)
      else if validDate data_evento = false then (.errDataFormat, store)
      else
        let eventi2 := store.eventi.map
          (fun e => if e.attivo then { e with attivo := false } else e)
        let newEv : Evento :=
          { id := store.nextEventoId, nome := nome, descrizione := descrizione
            prezzo := prezzo, data_evento := data_evento
            data_creazione := data_creazione, attivo := true }
        (.redirectDashboard,
          { store with
              eventi := eventi2 ++ [newEv]
              nextEventoId := store.nextEventoId + 1 })

/- ============================================================
   Delete registration endpoint (app.py lines 723-762)
   ============================================================ -/

/-- JSON values as decoded by `request.get_json()`, restricted to the
shapes the endpoint distinguishes: null (also standing for an absent
key, since `data.get` returns `None`), booleans, integer numbers and
strings.  Arrays, objects and non-integer numbers are not modelled. -/
inductive JVal where
  | jnull
  | jbool (b : Bool)
  | jint (n : Int)
  | jstr (s : String)
  deriving DecidableEq

/-- Python truthiness of such a value. -/
def jTruthy : JVal → Bool
  | .jnull => false
  | .jbool b => b
  | .jint n => n != 0
  | .jstr s => s != ""

/-- `int(x)` on such a value: ints unchanged, bools to 0/1, strings
parsed as integer literals, `None` a TypeError (`none`). -/
def jToInt : JVal → Option Int
  | .jnull => none
  | .jbool b => some (if b then 1 else 0)
  | .jint n => some n
  | .jstr s => pyInt s

/-- Outcome of `POST /admin/delete`, one constructor per response;
the numbers are the HTTP status codes of the source. -/
inductive DeleteResult where
  | err401
  | err403
  | err400missing
  | err400invalid
  | err404
  | ok (msg : String)
  deriving DecidableEq

/-- `delete_registrazione` (app.py lines 723-762): session gates, the
falsy-id check, `int(persona_id)` conversion, existence lookup, then
`DELETE FROM registrazioni WHERE id = ?`. -/
def delete_registrazione (sess : Session) (persona_id : JVal) (store : Store) :
    DeleteResult × Store :=
  if sess.user_logged_in = false then (.err401, store)
  else if sess.user_role ≠ "admin" then (.err403, store)
  else if jTruthy persona_id = false then (.err400missing, store)
  else
    match jToInt persona_id with
    | none => (.err400invalid, store)
    | some pid =>
      match store.registrazioni.find? (fun r => (r.id : Int) == pid) with
      | none => (.err404, store)
      | some persona =>
        (.ok ("Registrazione di " ++ persona.nome ++ " " ++ persona.cognome
            ++ " eliminata con successo"),
          { store with
              registrazioni := store.registrazioni.filter (fun r => (r.id : Int) != pid) })

/- ============================================================
   Helper lemmas
   ============================================================ -/

theorem mk_data (s : String) : String.mk s.data = s := rfl

theorem normalize_eq_self_iff (s : String) :
    normalize s = s ↔ ∀ c ∈ s.data, pyIsDigit c = true := by
  constructor
  · intro h
    exact List.filter_eq_self.mp (congrArg String.data h)
  · intro h
    have : s.data.filter pyIsDigit = s.data := List.filter_eq_self.mpr h
    calc normalize s = String.mk (s.data.filter pyIsDigit) := rfl
      _ = String.mk s.data := by rw [this]
      _ = s := rfl

/-- Characters accepted by Python isdigit are none of the five
characters the duplicate-check REPLACE chain removes. -/
theorem pyIsDigit_not_stripped {c : Char} (h : pyIsDigit c = true) :
    c ≠ ' ' ∧ c ≠ '-' ∧ c ≠ '.' ∧ c ≠ '(' ∧ c ≠ ')' := by
  refine ⟨?_, ?_, ?_, ?_, ?_⟩ <;> (rintro rfl; revert h; decide)

theorem removeChar_eq_self {x : Char} {s : String} (h : ∀ c ∈ s.data, c ≠ x) :
    removeChar x s = s := by
  have : s.data.filter (fun c => c ≠ x) = s.data :=
    List.filter_eq_self.mpr (fun c hc => by simpa using h c hc)
  calc removeChar x s = String.mk (s.data.filter (fun c => c ≠ x)) := rfl
    _ = String.mk s.data := by rw [this]
    _ = s := rfl

theorem data_removeChar_subset {x : Char} {s : String} :
    ∀ c ∈ (removeChar x s).data, c ∈ s.data := by
  intro c hc
  exact (List.filter_sublist s.data).subset hc

/-- On a string whose characters all pass Python isdigit — in
particular any output of `normalize` — the REPLACE chain of the
duplicate pre-check is the identity. -/
theorem sqlStrip_eq_self_of_digits {s : String}
    (h : ∀ c ∈ s.data, pyIsDigit c = true) : sqlStrip s = s := by
  have h1 : removeChar ' ' s = s :=
    removeChar_eq_self (fun c hc => (pyIsDigit_not_stripped (h c hc)).1)
  have h2 : removeChar '-' s = s :=
    removeChar_eq_self (fun c hc => (pyIsDigit_not_stripped (h c hc)).2.1)
  have h3 : removeChar '.' s = s :=
    removeChar_eq_self (fun c hc => (pyIsDigit_not_stripped (h c hc)).2.2.1)
  have h4 : removeChar '(' s = s :=
    removeChar_eq_self (fun c hc => (pyIsDigit_not_stripped (h c hc)).2.2.2.1)
  have h5 : removeChar ')' s = s :=
    removeChar_eq_self (fun c hc => (pyIsDigit_not_stripped (h c hc)).2.2.2.2)
  unfold sqlStrip
  rw [h1, h2, h3, h4, h5]

/-- The duplicate pre-check of `register`, rephrased: under the store
invariant that every stored telefono is already normalised (which the
code maintains: inserts store `telefono_pulito` and the `init_db`
migration normalises legacy rows), the SQL comparison with the REPLACE
chain agrees with comparing normalised phones. -/
theorem countP_dup_iff (regs : List Registrazione) (tp : String) (eid : Nat)
    (hstore : ∀ r ∈ regs, normalize r.telefono = r.telefono) :
    (0 < regs.countP
        (fun r => sqlStrip r.telefono == tp && r.evento_id == eid)) ↔
      ∃ r ∈ regs, normalize r.telefono = tp ∧ r.evento_id = eid := by
  rw [List.countP_pos_iff]
  constructor
  · rintro ⟨r, hr, hp⟩
    have hdig : ∀ c ∈ r.telefono.data, pyIsDigit c = true :=
      (normalize_eq_self_iff r.telefono).mp (hstore r hr)
    have hs : sqlStrip r.telefono = r.telefono := sqlStrip_eq_self_of_digits hdig
    simp only [Bool.and_eq_true, beq_iff_eq] at hp
    exact ⟨r, hr, by rw [hstore r hr, ← hs]; exact hp.1, hp.2⟩
  · rintro ⟨r, hr, htel, hev⟩
    have hdig : ∀ c ∈ r.telefono.data, pyIsDigit c = true :=
      (normalize_eq_self_iff r.telefono).mp (hstore r hr)
    have hs : sqlStrip r.telefono = r.telefono := sqlStrip_eq_self_of_digits hdig
    exact ⟨r, hr, by simp only [Bool.and_eq_true, beq_iff_eq]
                     exact ⟨by rw [hs, ← hstore r hr]; exact htel, hev⟩⟩

/- ============================================================
   C6 — phone normalisation
   ============================================================ -/

/-- C6 counterexample: the claim says normalization "returns a string
containing only decimal digit characters", but Python `str.isdigit`
also accepts non-decimal digit characters; on input "3²" the
normalisation keeps U+00B2 SUPERSCRIPT TWO, which is not a decimal
digit (it is outside 0-9 and Python `isdecimal` rejects it; its
Unicode category is No, not Nd). -/
theorem c6_counterexample :
    ('²' ∈ (normalize "3²").data) ∧ '²'.isDigit = false := by decide

/-- C6 (amended): for every input string, normalization keeps exactly
characters accepted by Python `str.isdigit` (all decimal digits plus
some non-decimal Unicode digit characters such as superscripts), in
their original order (the output is a sublist of the input); the empty
string maps to the empty string; and normalization is idempotent. -/
theorem c6_normalize_props (s : String) :
    (∀ c ∈ (normalize s).data, pyIsDigit c = true) ∧
      (normalize s).data.Sublist s.data ∧
      normalize "" = "" ∧
      normalize (normalize s) = normalize s := by
  refine ⟨?_, ?_, rfl, ?_⟩
  · intro c hc
    exact List.of_mem_filter hc
  · exact List.filter_sublist s.data
  · show String.mk ((s.data.filter pyIsDigit).filter pyIsDigit) = _
    rw [List.filter_filter]
    show String.mk (s.data.filter (fun a => pyIsDigit a && pyIsDigit a)) = _
    simp only [Bool.and_self]
    rfl

/- ============================================================
   C2 — no storage-layer uniqueness backstop
   ============================================================ -/

/-- C2: the duplicate-race backstop the spec describes does not exist
in the schema.  A store already holds a registration with (normalised)
telefono "3331234567" for evento 1; inserting a second registration
with the same normalised phone and the same evento satisfies every
constraint `init_db` declares (`insertOk` — fresh primary key, CHECK
on eta_fascia, foreign key), because `idx_telefono_evento` is created
without UNIQUE.  The insert therefore succeeds and the store ends up
with two rows carrying the same (normalized phone, event id) pair,
while the claim requires the insert to fail at a uniqueness constraint
and be reported as the duplicate-registration message. -/
theorem c2_no_uniqueness_backstop :
    let e1 : Evento := ⟨1, "Party", "", 0, "2025-06-01", "2025-01-01 10:00:00", true⟩
    let r1 : Registrazione := ⟨1, 1, "Mario", "Rossi", "3331234567", "18-21", "20:30", "t1"⟩
    let r2 : Registrazione := ⟨2, 1, "Luigi", "Verdi", "3331234567", "21-25", "21:00", "t2"⟩
    let store : Store := ⟨[e1], [r1], 2, 3⟩
    insertOk store r2 = true ∧
      normalize r2.telefono = normalize r1.telefono ∧
      r2.evento_id = r1.evento_id ∧
      RegOutcome.errDuplicate.message = "Sei già registrato per questo evento." := by
  decide

/- ============================================================
   C10 — falsy persona_id is rejected with 400
   ============================================================ -/

/-- C10: for an authenticated admin request whose `persona_id` decodes
to any falsy JSON value (null / absent, 0, empty string, false), the
endpoint answers 400 "ID persona mancante" and the store is untouched;
the outcome does not depend on the store at all (no store access), and
consequently a registration whose identifier is 0 is never deleted by
this endpoint. -/
theorem c10_falsy_id_rejected (sess : Session) (pid : JVal) (store store2 : Store)
    (hlog : sess.user_logged_in = true) (hrole : sess.user_role = "admin")
    (hfalsy : jTruthy pid = false) :
    (delete_registrazione sess pid store).1 = .err400missing ∧
      (delete_registrazione sess pid store).2 = store ∧
      (delete_registrazione sess pid store).1 = (delete_registrazione sess pid store2).1 ∧
      ∀ r ∈ store.registrazioni,
        r ∈ (delete_registrazione sess (.jint 0) store).2.registrazioni := by
  have h0 : jTruthy (JVal.jint 0) = false := rfl
  refine ⟨?_, ?_, ?_, ?_⟩ <;>
    simp [delete_registrazione, hlog, hrole, hfalsy, h0]

/-- Witness for C10 at a concrete input: admin session, `persona_id`
equal to the integer 0, a store whose only registration has id 0. -/
theorem c10_falsy_id_rejected_witness :
    (delete_registrazione ⟨true, "admin"⟩ (.jint 0)
        ⟨[], [⟨0, 1, "Anna", "Bianchi", "3331112223", "30+", "22:00", "t"⟩], 1, 1⟩).1
      = .err400missing ∧
    (delete_registrazione ⟨true, "admin"⟩ (.jint 0)
        ⟨[], [⟨0, 1, "Anna", "Bianchi", "3331112223", "30+", "22:00", "t"⟩], 1, 1⟩).2
      = ⟨[], [⟨0, 1, "Anna", "Bianchi", "3331112223", "30+", "22:00", "t"⟩], 1, 1⟩ := by
  have h := c10_falsy_id_rejected ⟨true, "admin"⟩ (.jint 0)
    ⟨[], [⟨0, 1, "Anna", "Bianchi", "3331112223", "30+", "22:00", "t"⟩], 1, 1⟩
    ⟨[], [⟨0, 1, "Anna", "Bianchi", "3331112223", "30+", "22:00", "t"⟩], 1, 1⟩
    rfl rfl rfl
  exact ⟨h.1, h.2.1⟩

/-- C10 counterexample: the claimed consequence — that a registration
whose identifier is 0 can never be deleted through this endpoint —
fails.  The JSON string "0" is truthy, so it passes the falsy check of
app.py line 735; `int("0")` is 0; the id-0 row is found and deleted
and the endpoint answers ok. -/
theorem c10_counterexample :
    jTruthy (.jstr "0") = true ∧
    (delete_registrazione ⟨true, "admin"⟩ (.jstr "0")
        ⟨[], [⟨0, 1, "Anna", "Bianchi", "3331112223", "30+", "22:00", "t"⟩],
         1, 1⟩).2.registrazioni = [] ∧
    (delete_registrazione ⟨true, "admin"⟩ (.jstr "0")
        ⟨[], [⟨0, 1, "Anna", "Bianchi", "3331112223", "30+", "22:00", "t"⟩],
         1, 1⟩).1
      = .ok "Registrazione di Anna Bianchi eliminata con successo" := by
  refine ⟨rfl, by decide, by decide⟩

/- ============================================================
   Rate-limiter state lemmas
   ============================================================ -/

theorem find?_map_set (st : RLState) (ip : String) (l : List Int) :
    (st.map (fun e => if e.1 == ip then (ip, l) else e)).find? (fun e => e.1 == ip)
      = (st.find? (fun e => e.1 == ip)).map (fun _ => (ip, l)) := by
  induction st with
  | nil => rfl
  | cons e rest ih =>
    simp only [List.map_cons, List.find?_cons]
    by_cases hb : (e.1 == ip) = true
    · rw [if_pos hb, hb]
      simp only [beq_self_eq_true]
      rfl
    · have hb' : (e.1 == ip) = false := by simpa using hb
      rw [if_neg hb, hb']
      exact ih

theorem find?_map_set_ne (st : RLState) (ip a : String) (l : List Int)
    (h : a ≠ ip) :
    (st.map (fun e => if e.1 == ip then (ip, l) else e)).find? (fun e => e.1 == a)
      = st.find? (fun e => e.1 == a) := by
  induction st with
  | nil => rfl
  | cons e rest ih =>
    simp only [List.map_cons, List.find?_cons]
    by_cases hb : (e.1 == ip) = true
    · rw [if_pos hb]
      have heq : e.1 = ip := by simpa using hb
      have h1 : (ip == a) = false := beq_eq_false_iff_ne.mpr (Ne.symm h)
      have h2 : (e.1 == a) = false := by rw [heq]; exact h1
      rw [h2]
      simp only [h1]
      exact ih
    · rw [if_neg hb]
      by_cases ha : (e.1 == a) = true
      · rw [ha]
      · have ha' : (e.1 == a) = false := by simpa using ha
        rw [ha']
        exact ih

theorem hasKey_eq_isSome (st : RLState) (ip : String) :
    hasKey st ip = (st.find? (fun e => e.1 == ip)).isSome := by
  rcases hf : st.find? (fun e => e.1 == ip) with _ | e
  · rw [hf]
    show st.any (fun e => e.1 == ip) = false
    rw [List.find?_eq_none] at hf
    rw [← Bool.not_eq_true, List.any_eq_true]
    rintro ⟨x, hx, hpx⟩
    exact hf x hx hpx
  · rw [hf]
    show st.any (fun e => e.1 == ip) = true
    have hpe : (fun e : String × List Int => e.1 == ip) e = true :=
      @List.find?_some _ (fun e => e.1 == ip) e st hf
    exact List.any_eq_true.mpr ⟨e, List.mem_of_find?_eq_some hf, hpe⟩

theorem find?_eq_none_of_not_hasKey {st : RLState} {ip : String}
    (h : ¬ hasKey st ip = true) : st.find? (fun e => e.1 == ip) = none := by
  rw [hasKey_eq_isSome] at h
  exact Option.not_isSome_iff_eq_none.mp (by simpa using h)

theorem lookupRL_setRL_self (st : RLState) (ip : String) (l : List Int) :
    lookupRL (setRL st ip l) ip = l := by
  unfold setRL
  by_cases h : hasKey st ip
  · rw [if_pos h]
    unfold lookupRL
    rw [find?_map_set]
    rcases hf : st.find? (fun e => e.1 == ip) with _ | e
    · rw [hasKey_eq_isSome, hf] at h
      exact Bool.noConfusion h
    · rw [hf]
      rfl
  · rw [if_neg h]
    unfold lookupRL
    rw [List.find?_append, find?_eq_none_of_not_hasKey h]
    simp only [List.find?_cons, beq_self_eq_true, Option.none_or]

theorem lookupRL_setRL_ne (st : RLState) (ip a : String) (l : List Int)
    (h : a ≠ ip) : lookupRL (setRL st ip l) a = lookupRL st a := by
  unfold setRL
  by_cases hk : hasKey st ip
  · rw [if_pos hk]
    unfold lookupRL
    rw [find?_map_set_ne st ip a l h]
  · rw [if_neg hk]
    unfold lookupRL
    have hipa : (ip == a) = false := beq_eq_false_iff_ne.mpr (Ne.symm h)
    rw [List.find?_append]
    have hnone : List.find? (fun e => e.1 == a) [(ip, l)] = none := by
      simp only [List.find?_cons, hipa]
      rfl
    rw [hnone, Option.or_none]

theorem find?_filter_ne_self (st : RLState) (ip : String) :
    List.find? (fun e => e.1 == ip) (st.filter (fun e => e.1 != ip)) = none := by
  rw [List.find?_eq_none]
  intro x hx
  have h2 := (List.mem_filter.mp hx).2
  simp only [bne_iff_ne, ne_eq] at h2
  simp [h2]

theorem find?_filter_ne_other (st : RLState) (ip a : String) (h : a ≠ ip) :
    List.find? (fun e => e.1 == a) (st.filter (fun e => e.1 != ip))
      = List.find? (fun e => e.1 == a) st := by
  induction st with
  | nil => rfl
  | cons e rest ih =>
    by_cases hk : e.1 == a
    · have heq : e.1 = a := by simpa using hk
      have hne : (e.1 != ip) = true := by simp [heq, h]
      simp [List.filter_cons, hne, List.find?, hk]
    · by_cases hip : (e.1 != ip) = true
      · simp [List.filter_cons, hip, List.find?, hk, ih]
      · simp [List.filter_cons, hip, List.find?, hk, ih]

theorem hasKey_clear_self (st : RLState) (ip : String) :
    hasKey (clear_failed_logins st ip) ip = false := by
  unfold clear_failed_logins
  by_cases h : hasKey st ip
  · rw [if_pos h]
    rw [hasKey_eq_isSome, find?_filter_ne_self st ip]
    rfl
  · rw [if_neg h]
    exact Bool.not_eq_true _ |>.mp h

theorem lookupRL_clear_self (st : RLState) (ip : String) :
    lookupRL (clear_failed_logins st ip) ip = [] := by
  unfold clear_failed_logins
  by_cases h : hasKey st ip
  · rw [if_pos h]
    unfold lookupRL
    rw [find?_filter_ne_self st ip]
  · rw [if_neg h]
    unfold lookupRL
    rw [find?_eq_none_of_not_hasKey h]

theorem lookupRL_clear_ne (st : RLState) (ip a : String) (h : a ≠ ip) :
    lookupRL (clear_failed_logins st ip) a = lookupRL st a := by
  unfold clear_failed_logins
  by_cases hk : hasKey st ip
  · rw [if_pos hk]
    unfold lookupRL
    rw [find?_filter_ne_other st ip a h]
  · rw [if_neg hk]

/- ============================================================
   C3 — lockout after 5 failures, release after the window
   ============================================================ -/

/-- C3: with 5 recorded failures for an address, all within the
300-second window of `now` (timestamps in ascending recording order),
`check_rate_limit` denies the attempt and reports the wait as 300 minus
the time elapsed since the oldest retained failure; and at any instant
at least 300 seconds past that oldest failure, a further check on the
resulting state allows the address again. -/
theorem c3_rate_limit_lockout (st : RLState) (now now2 : Int) (ip : String)
    (h5 : (lookupRL st ip).length = 5)
    (_hsort : (lookupRL st ip).Sorted (· ≤ ·))
    (hwin : ∀ ts ∈ lookupRL st ip, now - ts < 300)
    (hexp : 300 ≤ now2 - (lookupRL st ip).headI) :
    (check_rate_limit st now ip).1
        = (false, 300 - (now - (lookupRL st ip).headI)) ∧
      (check_rate_limit (check_rate_limit st now ip).2 now2 ip).1.1 = true := by
  have hfl : (lookupRL st ip).filter (fun ts => now - ts < LOGIN_LOCKOUT_TIME)
      = lookupRL st ip :=
    List.filter_eq_self.mpr (fun ts hts => by
      simpa [LOGIN_LOCKOUT_TIME] using hwin ts hts)
  constructor
  · simp only [check_rate_limit, hfl, h5]
    rw [if_pos (by simp [MAX_LOGIN_ATTEMPTS, h5])]
    rfl
  · rcases hc : lookupRL st ip with _ | ⟨a, t⟩
    · rw [hc] at h5; simp at h5
    · have hlen : t.length = 4 := by rw [hc] at h5; simpa using h5
      have hhead : (lookupRL st ip).headI = a := by rw [hc]; rfl
      rw [hhead] at hexp
      have hst2 : (check_rate_limit st now ip).2
          = setRL st ip (lookupRL st ip) := by
        simp only [check_rate_limit, hfl]
        split <;> rfl
      rw [hst2, hc]
      have hlk : lookupRL (setRL st ip (a :: t)) ip = a :: t :=
        lookupRL_setRL_self st ip _
      have hpa : (decide (now2 - a < LOGIN_LOCKOUT_TIME)) = false := by
        simp only [LOGIN_LOCKOUT_TIME, decide_eq_false_iff_not, not_lt]
        omega
      have hfc : (a :: t).filter (fun ts => now2 - ts < LOGIN_LOCKOUT_TIME)
          = t.filter (fun ts => now2 - ts < LOGIN_LOCKOUT_TIME) := by
        rw [List.filter_cons, hpa]
        simp
      simp only [check_rate_limit, hlk, hfc]
      rw [if_neg ?side]
      case side =>
        intro hle
        have hb := List.length_filter_le
          (fun ts => decide (now2 - ts < LOGIN_LOCKOUT_TIME)) t
        rw [hlen] at hb
        simp only [MAX_LOGIN_ATTEMPTS] at hle
        omega

/-- Witness for C3: five failures at seconds 0,10,20,30,40; a check at
second 100 is denied with a 200-second wait, and a check at second 301
(more than 300s past the oldest failure) is allowed again. -/
theorem c3_rate_limit_lockout_witness :
    (check_rate_limit [("1.2.3.4", [0, 10, 20, 30, 40])] 100 "1.2.3.4").1
        = (false, 200) ∧
      (check_rate_limit
        (check_rate_limit [("1.2.3.4", [0, 10, 20, 30, 40])] 100 "1.2.3.4").2
        301 "1.2.3.4").1.1 = true := by
  have h := c3_rate_limit_lockout [("1.2.3.4", [0, 10, 20, 30, 40])] 100 301 "1.2.3.4"
    (by decide) (by decide) (by decide) (by decide)
  exact ⟨h.1, h.2⟩

/- ============================================================
   C9 — the limiter only prunes; denial happens before recording
   ============================================================ -/

/-- C9: (1) `check_rate_limit` changes the limiter state only by
removing expired timestamps — the checked address keeps exactly its
timestamps still inside the 300-second window and every other address
is untouched; (2) a rate-limited login attempt returns at once, before
`record_failed_login`, so the state after a denied attempt is exactly
the pruned state; (3) for an address with exactly 5 recorded failures
(in ascending recording order) the check allows the attempt exactly
when 300 seconds have passed since the oldest recorded failure — so
repeated denied attempts never extend the lockout. -/
theorem c9_rate_limit_frame (env : LoginEnv) (st : RLState) (now : Int)
    (ip u p : String) :
    (∀ a, lookupRL (check_rate_limit st now ip).2 a
        = if a = ip then (lookupRL st ip).filter (fun ts => now - ts < 300)
          else lookupRL st a) ∧
      ((check_rate_limit st now ip).1.1 = false →
        (admin_login_post env st now ip u p).2 = (check_rate_limit st now ip).2 ∧
        (admin_login_post env st now ip u p).1
          = .rateLimited (check_rate_limit st now ip).1.2) ∧
      ((lookupRL st ip).length = 5 → (lookupRL st ip).Sorted (· ≤ ·) →
        ((check_rate_limit st now ip).1.1 = true
          ↔ 300 ≤ now - (lookupRL st ip).headI)) := by
  have hst2 : (check_rate_limit st now ip).2
      = setRL st ip ((lookupRL st ip).filter (fun ts => now - ts < LOGIN_LOCKOUT_TIME)) := by
    simp only [check_rate_limit]
    split <;> rfl
  refine ⟨?_, ?_, ?_⟩
  · intro a
    by_cases ha : a = ip
    · subst ha
      rw [if_pos rfl, hst2]
      exact lookupRL_setRL_self st a _
    · rw [if_neg ha, hst2]
      exact lookupRL_setRL_ne st ip a _ ha
  · intro hdeny
    constructor
    · simp only [admin_login_post, hdeny]
      rw [if_pos trivial]
    · simp only [admin_login_post, hdeny]
      rw [if_pos trivial]
  · intro h5 hsort
    rcases hc : lookupRL st ip with _ | ⟨a, t⟩
    · rw [hc] at h5; simp at h5
    · have hlen : t.length = 4 := by rw [hc] at h5; simpa using h5
      have hh : (a :: t).headI = a := rfl
      rw [hh]
      constructor
      · intro hallow
        by_contra hlt
        push_neg at hlt
        have hall : (a :: t).filter
            (fun ts => now - ts < LOGIN_LOCKOUT_TIME) = a :: t := by
          refine List.filter_eq_self.mpr (fun ts hts => ?_)
          rw [hc] at hsort
          simp only [decide_eq_true_eq, LOGIN_LOCKOUT_TIME]
          rcases List.mem_cons.mp hts with rfl | hmem
          · omega
          · have := List.rel_of_sorted_cons hsort ts hmem
            omega
        simp only [check_rate_limit, hc, hall] at hallow
        rw [if_pos (by simp [MAX_LOGIN_ATTEMPTS, hlen])] at hallow
        exact Bool.noConfusion hallow
      · intro hexp
        have hpa : (decide (now - a < LOGIN_LOCKOUT_TIME)) = false := by
          simp only [LOGIN_LOCKOUT_TIME, decide_eq_false_iff_not, not_lt]
          omega
        have hfc : (a :: t).filter (fun ts => now - ts < LOGIN_LOCKOUT_TIME)
            = t.filter (fun ts => now - ts < LOGIN_LOCKOUT_TIME) := by
          rw [List.filter_cons, hpa]
          simp
        simp only [check_rate_limit, hc, hfc]
        rw [if_neg ?side]
        case side =>
          intro hle
          have hb := List.length_filter_le
            (fun ts => decide (now - ts < LOGIN_LOCKOUT_TIME)) t
          rw [hlen] at hb
          simp only [MAX_LOGIN_ATTEMPTS] at hle
          omega

/-- Witness for C9: with failures at 0,10,20,30,40 — (frame) a check at
second 100 leaves the other address "9.9.9.9" untouched and keeps the
full list for "1.2.3.4"; (early return) the denied login attempt at
second 100 leaves the state exactly as the check left it; (release) a
check at second 301 is allowed, via the iff with 300 ≤ 301 - 0. -/
theorem c9_rate_limit_frame_witness :
    lookupRL (check_rate_limit [("1.2.3.4", [0, 10, 20, 30, 40])] 100 "1.2.3.4").2 "9.9.9.9"
        = lookupRL [("1.2.3.4", [0, 10, 20, 30, 40])] "9.9.9.9" ∧
      (admin_login_post ⟨"admin", "admin123"⟩
          [("1.2.3.4", [0, 10, 20, 30, 40])] 100 "1.2.3.4" "admin" "admin123").2
        = (check_rate_limit [("1.2.3.4", [0, 10, 20, 30, 40])] 100 "1.2.3.4").2 ∧
      (check_rate_limit [("1.2.3.4", [0, 10, 20, 30, 40])] 301 "1.2.3.4").1.1 = true := by
  have h100 := c9_rate_limit_frame ⟨"admin", "admin123"⟩
    [("1.2.3.4", [0, 10, 20, 30, 40])] 100 "1.2.3.4" "admin" "admin123"
  have h301 := c9_rate_limit_frame ⟨"admin", "admin123"⟩
    [("1.2.3.4", [0, 10, 20, 30, 40])] 301 "1.2.3.4" "admin" "admin123"
  refine ⟨?_, ?_, ?_⟩
  · rw [h100.1 "9.9.9.9", if_neg (by decide)]
  · exact (h100.2.1 (by decide)).1
  · exact (h301.2.2 (by decide) (by decide)).mpr (by decide)

/- ============================================================
   C7 — successful login clears the failure record
   ============================================================ -/

/-- C7: when the rate limiter allows the attempt and the credentials
match (case-insensitive username, exact password, both fields nonempty
after stripping), `admin_login_post` succeeds and the resulting limiter
state has no entry at all for that address — all its recorded failures
are gone — while every other address keeps exactly its previous
record. -/
theorem c7_login_success_clears (env : LoginEnv) (st : RLState) (now : Int)
    (ip u p : String)
    (hallow : (check_rate_limit st now ip).1.1 = true)
    (hu : ¬ (pyStrip u = "" ∨ pyStrip p = ""))
    (huser : pyLower env.adminUsername = pyLower (pyStrip u))
    (hpw : env.adminPassword = pyStrip p) :
    (admin_login_post env st now ip u p).1 = .success ∧
      hasKey (admin_login_post env st now ip u p).2 ip = false ∧
      lookupRL (admin_login_post env st now ip u p).2 ip = [] ∧
      ∀ a, a ≠ ip → lookupRL (admin_login_post env st now ip u p).2 a = lookupRL st a := by
  have hres : (admin_login_post env st now ip u p)
      = (.success, clear_failed_logins (check_rate_limit st now ip).2 ip) := by
    simp only [admin_login_post]
    rw [if_neg (by simp [hallow]), if_neg hu, if_pos ⟨huser, hpw⟩]
  have hst2 : (check_rate_limit st now ip).2
      = setRL st ip ((lookupRL st ip).filter (fun ts => now - ts < LOGIN_LOCKOUT_TIME)) := by
    simp only [check_rate_limit]
    split <;> rfl
  rw [hres]
  refine ⟨rfl, hasKey_clear_self _ ip, lookupRL_clear_self _ ip, fun a ha => ?_⟩
  rw [lookupRL_clear_ne _ ip a ha, hst2, lookupRL_setRL_ne st ip a _ ha]

/-- Witness for C7: one prior failure for "1.2.3.4" and one for another
address; a successful admin login from "1.2.3.4" removes its entry and
leaves the other address's record intact. -/
theorem c7_login_success_clears_witness :
    (admin_login_post ⟨"admin", "admin123"⟩
        [("1.2.3.4", [7]), ("9.9.9.9", [3])] 50 "1.2.3.4" " Admin " "admin123").1
      = .success ∧
    hasKey (admin_login_post ⟨"admin", "admin123"⟩
        [("1.2.3.4", [7]), ("9.9.9.9", [3])] 50 "1.2.3.4" " Admin " "admin123").2 "1.2.3.4"
      = false ∧
    lookupRL (admin_login_post ⟨"admin", "admin123"⟩
        [("1.2.3.4", [7]), ("9.9.9.9", [3])] 50 "1.2.3.4" " Admin " "admin123").2 "9.9.9.9"
      = lookupRL [("1.2.3.4", [7]), ("9.9.9.9", [3])] "9.9.9.9" := by
  have h := c7_login_success_clears ⟨"admin", "admin123"⟩
    [("1.2.3.4", [7]), ("9.9.9.9", [3])] 50 "1.2.3.4" " Admin " "admin123"
    (by decide) (by decide) (by decide) (by decide)
  exact ⟨h.1, h.2.1, h.2.2.2 "9.9.9.9" (by decide)⟩

/- ============================================================
   C4 — creating an event leaves exactly one active event
   ============================================================ -/

/-- C4: an authenticated admin event creation that passes validation
(nonempty name of at most 200 characters, nonempty event date in valid
YYYY-MM-DD form) redirects to the dashboard and leaves exactly one
event with the active flag set — the newly created one; every
previously active event has been deactivated first.  Since failing
paths return the store unchanged, at most one event is active after
any completed creation whenever that held before. -/
theorem c4_crea_evento_single_active (sess : Session) (store : Store)
    (nome descrizione prezzo_str data_evento data_creazione : String)
    (hlog : sess.user_logged_in = true) (hrole : sess.user_role = "admin")
    (hnome : ¬ (pyStrip nome = "" ∨ (pyStrip nome).length > 200))
    (hdata : ¬ (pyStrip data_evento = ""))
    (hfmt : validDate (pyStrip data_evento) = true) :
    (crea_evento sess store nome descrizione prezzo_str data_evento data_creazione).1
        = .redirectDashboard ∧
      (crea_evento sess store nome descrizione prezzo_str data_evento
          data_creazione).2.eventi.filter (fun e => e.attivo)
        = [{ id := store.nextEventoId, nome := pyStrip nome
             descrizione := pyStrip descrizione
             prezzo := parsePrezzo (pyStrip prezzo_str)
             data_evento := pyStrip data_evento
             data_creazione := data_creazione, attivo := true }] := by
  have hres : crea_evento sess store nome descrizione prezzo_str data_evento data_creazione
      = (.redirectDashboard,
          { store with
              eventi := store.eventi.map
                  (fun e => if e.attivo then { e with attivo := false } else e)
                ++ [{ id := store.nextEventoId, nome := pyStrip nome
                      descrizione := pyStrip descrizione
                      prezzo := parsePrezzo (pyStrip prezzo_str)
                      data_evento := pyStrip data_evento
                      data_creazione := data_creazione, attivo := true }]
              nextEventoId := store.nextEventoId + 1 }) := by
    simp only [crea_evento]
    rw [if_neg (by simp [hlog]), if_neg (by simp [hrole]), if_neg hnome,
      if_neg hdata, if_neg (by simp [hfmt])]
  refine ⟨by rw [hres], ?_⟩
  have heventi : (crea_evento sess store nome descrizione prezzo_str data_evento
        data_creazione).2.eventi
      = store.eventi.map (fun e => if e.attivo then { e with attivo := false } else e)
        ++ [{ id := store.nextEventoId, nome := pyStrip nome
              descrizione := pyStrip descrizione
              prezzo := parsePrezzo (pyStrip prezzo_str)
              data_evento := pyStrip data_evento
              data_creazione := data_creazione, attivo := true }] := by
    rw [hres]
  rw [heventi, List.filter_append]
  have hmap : (store.eventi.map
      (fun e => if e.attivo then { e with attivo := false } else e)).filter
        (fun e => e.attivo) = [] := by
    refine List.filter_eq_nil_iff.mpr (fun e' he' => ?_)
    obtain ⟨e, _, rfl⟩ := List.mem_map.mp he'
    by_cases ha : e.attivo
    · rw [if_pos ha]
      simp
    · rw [if_neg ha]
      simpa using ha
  rw [hmap]
  rfl

/-- Witness for C4: a store holding one active and one inactive event;
creating "Festa" on 2025-06-01 leaves exactly the new event active. -/
theorem c4_crea_evento_single_active_witness :
    (crea_evento ⟨true, "admin"⟩
        ⟨[⟨1, "Old", "", 0, "2025-01-01", "c1", true⟩,
          ⟨2, "Older", "", 0, "2024-01-01", "c0", false⟩], [], 3, 1⟩
        "Festa" "desc" "10" "2025-06-01" "c2").2.eventi.filter (fun e => e.attivo)
      = [{ id := 3, nome := pyStrip "Festa", descrizione := pyStrip "desc"
           prezzo := parsePrezzo (pyStrip "10"), data_evento := pyStrip "2025-06-01"
           data_creazione := "c2", attivo := true }] := by
  exact (c4_crea_evento_single_active ⟨true, "admin"⟩
    ⟨[⟨1, "Old", "", 0, "2025-01-01", "c1", true⟩,
      ⟨2, "Older", "", 0, "2024-01-01", "c0", false⟩], [], 3, 1⟩
    "Festa" "desc" "10" "2025-06-01" "c2"
    rfl rfl (by decide) (by decide) (by decide)).2

/- ============================================================
   C8 — delete removes exactly the requested row, 404 otherwise
   ============================================================ -/

/-- C8: for an authenticated admin delete with a (truthy) integer id
on a store with distinct registration ids: when a registration with
that id exists, the response is ok (status 200) and exactly that one
row is removed — the survivors are precisely the rows with a different
id and the length drops by one; when no such registration exists, the
response is 404 and the store is unchanged. -/
theorem c8_delete_by_id (sess : Session) (pid : Int) (store : Store)
    (hlog : sess.user_logged_in = true) (hrole : sess.user_role = "admin")
    (hpid : pid ≠ 0)
    (hnodup : (store.registrazioni.map (fun r => r.id)).Nodup) :
    ((∃ r ∈ store.registrazioni, (r.id : Int) = pid) →
      (∃ msg, (delete_registrazione sess (.jint pid) store).1 = .ok msg) ∧
      (delete_registrazione sess (.jint pid) store).2.registrazioni
        = store.registrazioni.filter (fun r => (r.id : Int) != pid) ∧
      (delete_registrazione sess (.jint pid) store).2.registrazioni.length + 1
        = store.registrazioni.length) ∧
    ((¬ ∃ r ∈ store.registrazioni, (r.id : Int) = pid) →
      (delete_registrazione sess (.jint pid) store).1 = .err404 ∧
      (delete_registrazione sess (.jint pid) store).2 = store) := by
  have hd : delete_registrazione sess (.jint pid) store
      = (match store.registrazioni.find? (fun r => (r.id : Int) == pid) with
         | none => (.err404, store)
         | some persona =>
           (.ok ("Registrazione di " ++ persona.nome ++ " " ++ persona.cognome
               ++ " eliminata con successo"),
            { store with
                registrazioni :=
                  store.registrazioni.filter (fun r => (r.id : Int) != pid) })) := by
    simp only [delete_registrazione]
    rw [if_neg (by simp [hlog]), if_neg (by simp [hrole]),
      if_neg (by simp [jTruthy, hpid])]
    rfl
  constructor
  · rintro ⟨r, hr, hrid⟩
    have hsome : (store.registrazioni.find? (fun r => (r.id : Int) == pid)).isSome = true :=
      List.find?_isSome.mpr ⟨r, hr, by simp [hrid]⟩
    obtain ⟨x, hx⟩ := Option.isSome_iff_exists.mp hsome
    have hx1 : x ∈ store.registrazioni := List.mem_of_find?_eq_some hx
    have hx2 : ((x.id : Int) == pid) = true :=
      @List.find?_some _ (fun r => (r.id : Int) == pid) x _ hx
    have hxe : (x.id : Int) = pid := by simpa using hx2
    subst hxe
    have hc1 : store.registrazioni.countP (fun r => (r.id : Int) == (x.id : Int))
        = store.registrazioni.countP (fun r => r.id == x.id) :=
      List.countP_congr (fun r _ => by simp)
    have hc2 : store.registrazioni.countP (fun r => r.id == x.id)
        = (store.registrazioni.map (fun r => r.id)).count x.id := by
      rw [List.count_eq_countP, List.countP_map]
      rfl
    have hcount : store.registrazioni.countP (fun r => (r.id : Int) == (x.id : Int)) = 1 := by
      rw [hc1, hc2]
      exact List.count_eq_one_of_mem hnodup (List.mem_map_of_mem _ hx1)
    have hnotc : store.registrazioni.countP
          (fun a => decide ¬((a.id : Int) == (x.id : Int)) = true)
        = (store.registrazioni.filter (fun r => (r.id : Int) != (x.id : Int))).length := by
      rw [← List.countP_eq_length_filter]
      exact List.countP_congr (fun r _ => by simp [bne])
    have htot := List.length_eq_countP_add_countP
      (fun r : Registrazione => (r.id : Int) == (x.id : Int)) store.registrazioni
    rw [hd, hx]
    refine ⟨⟨_, rfl⟩, rfl, ?_⟩
    show (store.registrazioni.filter (fun r => (r.id : Int) != (x.id : Int))).length + 1
      = store.registrazioni.length
    omega
  · intro hne
    have hnone : store.registrazioni.find? (fun r => (r.id : Int) == pid) = none :=
      List.find?_eq_none.mpr (fun x hx hpx => hne ⟨x, hx, by simpa using hpx⟩)
    rw [hd, hnone]
    exact ⟨rfl, rfl⟩

/-- Witness for C8 at concrete inputs: a store with registrations 1 and
2; deleting id 1 keeps exactly id 2, and deleting id 7 gives 404 with
the store unchanged. -/
theorem c8_delete_by_id_witness :
    (delete_registrazione ⟨true, "admin"⟩ (.jint 1)
        ⟨[], [⟨1, 1, "Mario", "Rossi", "3331234567", "18-21", "20:30", "t1"⟩,
              ⟨2, 1, "Anna", "Verdi", "3397654321", "30+", "21:00", "t2"⟩], 1, 3⟩).2.registrazioni
      = [⟨2, 1, "Anna", "Verdi", "3397654321", "30+", "21:00", "t2"⟩] ∧
    (delete_registrazione ⟨true, "admin"⟩ (.jint 7)
        ⟨[], [⟨1, 1, "Mario", "Rossi", "3331234567", "18-21", "20:30", "t1"⟩,
              ⟨2, 1, "Anna", "Verdi", "3397654321", "30+", "21:00", "t2"⟩], 1, 3⟩).1
      = .err404 := by
  have h1 := c8_delete_by_id ⟨true, "admin"⟩ 1
    ⟨[], [⟨1, 1, "Mario", "Rossi", "3331234567", "18-21", "20:30", "t1"⟩,
          ⟨2, 1, "Anna", "Verdi", "3397654321", "30+", "21:00", "t2"⟩], 1, 3⟩
    rfl rfl (by decide) (by decide)
  have h7 := c8_delete_by_id ⟨true, "admin"⟩ 7
    ⟨[], [⟨1, 1, "Mario", "Rossi", "3331234567", "18-21", "20:30", "t1"⟩,
          ⟨2, 1, "Anna", "Verdi", "3397654321", "30+", "21:00", "t2"⟩], 1, 3⟩
    rfl rfl (by decide) (by decide)
  constructor
  · rw [(h1.1 ⟨_, List.mem_cons_self _ _, rfl⟩).2.1]
    decide
  · exact (h7.2 (by decide)).1

/- ============================================================
   C5 — short-circuit order: phone format precedes arrival time
   ============================================================ -/

/-- C5 counterexample: a submission whose arrival time "99:99" is
invalid and whose phone "123456789" does not start with 3 is rejected
with the phone error, not the arrival-time error: the handler checks
the phone format (app.py lines 268-276) before parsing the arrival
time (lines 278-290), while the claim puts the phone check last and
requires the arrival-time error here. -/
theorem c5_counterexample :
    (register ⟨[⟨1, "Party", "", 0, "2025-06-01", "c", true⟩], [], 2, 1⟩
        ⟨"Mario", "Rossi", "123456789", "18-21", "99:99", some "on"⟩ "t").1
      = .errTelefonoStart ∧
    RegOutcome.errTelefonoStart ≠ .errOrario ∧
    validOrario (pyStrip "99:99") = false ∧
    startsWith3 (normalize (pyStrip "123456789")) = false := by
  decide

theorem register_firstValidationError (store : Store) (form : RegForm)
    (created_at : String) (err : RegOutcome)
    (herr : firstValidationError (store.eventi.find? (fun e => e.attivo)) form
      = some err) :
    register store form created_at = (err, store) := by
  rcases hfind : store.eventi.find? (fun e => e.attivo) with _ | ev
  · rw [hfind] at herr
    injection herr with he
    subst he
    simp only [register, hfind]
  · rw [hfind] at herr
    simp only [firstValidationError] at herr
    simp only [register, hfind]
    by_cases h1 : pyStrip form.nome = "" ∨ (pyStrip form.nome).length > 100
    case pos =>
      rw [if_pos h1] at herr ⊢
      injection herr with he
      subst he
      rfl
    rw [if_neg h1] at herr ⊢
    by_cases h2 : pyStrip form.cognome = "" ∨ (pyStrip form.cognome).length > 100
    case pos =>
      rw [if_pos h2] at herr ⊢
      injection herr with he
      subst he
      rfl
    rw [if_neg h2] at herr ⊢
    by_cases h3 : pyStrip form.telefono = ""
    case pos =>
      rw [if_pos h3] at herr ⊢
      injection herr with he
      subst he
      rfl
    rw [if_neg h3] at herr ⊢
    by_cases h4 : pyStrip form.eta_fascia = "" ∨ pyStrip form.eta_fascia ∉ fasce
    case pos =>
      rw [if_pos h4] at herr ⊢
      injection herr with he
      subst he
      rfl
    rw [if_neg h4] at herr ⊢
    by_cases h5 : pyStrip form.orario_arrivo = ""
    case pos =>
      rw [if_pos h5] at herr ⊢
      injection herr with he
      subst he
      rfl
    rw [if_neg h5] at herr ⊢
    by_cases h6 : pyTruthyOpt form.privacy_consent = false
    case pos =>
      rw [if_pos h6] at herr ⊢
      injection herr with he
      subst he
      rfl
    rw [if_neg h6] at herr ⊢
    by_cases h7 : startsWith3 (normalize (pyStrip form.telefono)) = false
    case pos =>
      rw [if_pos h7] at herr ⊢
      injection herr with he
      subst he
      rfl
    rw [if_neg h7] at herr ⊢
    by_cases h8 : (normalize (pyStrip form.telefono)).length < 9
      ∨ (normalize (pyStrip form.telefono)).length > 15
    case pos =>
      rw [if_pos h8] at herr ⊢
      injection herr with he
      subst he
      rfl
    rw [if_neg h8] at herr ⊢
    by_cases h9 : validOrario (pyStrip form.orario_arrivo) = false
    case pos =>
      rw [if_pos h9] at herr ⊢
      injection herr with he
      subst he
      rfl
    rw [if_neg h9] at herr
    exact Option.noConfusion herr

theorem register_failure_frame (store : Store) (form : RegForm)
    (created_at : String) :
    (register store form created_at).1 ≠ .success →
      (register store form created_at).2 = store := by
  intro hne
  rcases hprod : register store form created_at with ⟨o, st2⟩
  rw [hprod] at hne
  rcases hfind : store.eventi.find? (fun e => e.attivo) with _ | ev
  · simp only [register, hfind] at hprod
    injection hprod with ho hs
    exact hs.symm
  · simp only [register, hfind] at hprod
    by_cases h1 : pyStrip form.nome = "" ∨ (pyStrip form.nome).length > 100
    case pos =>
      rw [if_pos h1] at hprod
      injection hprod with ho hs
      exact hs.symm
    rw [if_neg h1] at hprod
    by_cases h2 : pyStrip form.cognome = "" ∨ (pyStrip form.cognome).length > 100
    case pos =>
      rw [if_pos h2] at hprod
      injection hprod with ho hs
      exact hs.symm
    rw [if_neg h2] at hprod
    by_cases h3 : pyStrip form.telefono = ""
    case pos =>
      rw [if_pos h3] at hprod
      injection hprod with ho hs
      exact hs.symm
    rw [if_neg h3] at hprod
    by_cases h4 : pyStrip form.eta_fascia = "" ∨ pyStrip form.eta_fascia ∉ fasce
    case pos =>
      rw [if_pos h4] at hprod
      injection hprod with ho hs
      exact hs.symm
    rw [if_neg h4] at hprod
    by_cases h5 : pyStrip form.orario_arrivo = ""
    case pos =>
      rw [if_pos h5] at hprod
      injection hprod with ho hs
      exact hs.symm
    rw [if_neg h5] at hprod
    by_cases h6 : pyTruthyOpt form.privacy_consent = false
    case pos =>
      rw [if_pos h6] at hprod
      injection hprod with ho hs
      exact hs.symm
    rw [if_neg h6] at hprod
    by_cases h7 : startsWith3 (normalize (pyStrip form.telefono)) = false
    case pos =>
      rw [if_pos h7] at hprod
      injection hprod with ho hs
      exact hs.symm
    rw [if_neg h7] at hprod
    by_cases h8 : (normalize (pyStrip form.telefono)).length < 9
      ∨ (normalize (pyStrip form.telefono)).length > 15
    case pos =>
      rw [if_pos h8] at hprod
      injection hprod with ho hs
      exact hs.symm
    rw [if_neg h8] at hprod
    by_cases h9 : validOrario (pyStrip form.orario_arrivo) = false
    case pos =>
      rw [if_pos h9] at hprod
      injection hprod with ho hs
      exact hs.symm
    rw [if_neg h9] at hprod
    by_cases h10 : store.eventi.any (fun e => e.id == ev.id && e.attivo) = false
    case pos =>
      rw [if_pos h10] at hprod
      injection hprod with ho hs
      exact hs.symm
    rw [if_neg h10] at hprod
    by_cases h11 : 0 < List.countP
        (fun r => sqlStrip r.telefono == normalize (pyStrip form.telefono)
          && r.evento_id == ev.id) store.registrazioni
    case pos =>
      rw [if_pos h11] at hprod
      injection hprod with ho hs
      exact hs.symm
    rw [if_neg h11] at hprod
    by_cases h12 : insertOk store
        { id := store.nextRegId, evento_id := ev.id, nome := pyStrip form.nome,
          cognome := pyStrip form.cognome, telefono := normalize (pyStrip form.telefono),
          eta_fascia := pyStrip form.eta_fascia, orario_arrivo := pyStrip form.orario_arrivo,
          created_at := created_at } = true
    case pos =>
      rw [if_pos h12] at hprod
      injection hprod with ho hs
      exact absurd ho.symm hne
    rw [if_neg h12] at hprod
    injection hprod with ho hs
    exact hs.symm

/-- C5 (amended): validation short-circuits on the first violated rule
in the order the code checks them — event availability, then names,
then phone presence, age bracket, arrival-time presence, consent, then
phone format (starts with 3, then 9-15 digits), and the arrival-time
HH:MM parse only after those — with no storage access before
validation completes: whenever a validation rule fails, the handler
returns exactly that rule's error with the store unchanged, and the
outcome is determined by the active-event lookup and the form alone,
identical over any store with the same active-event lookup; every
rejected submission (validation or later) leaves the store unchanged.
In particular, a submission with both an invalid arrival time and an
invalid phone is rejected with the phone error (`errTelefonoStart` or
`errTelefonoLen`), not the arrival-time error. -/
theorem c5_validation_order (store store2 : Store) (form : RegForm)
    (created_at : String) :
    (∀ err, firstValidationError (store.eventi.find? (fun e => e.attivo)) form
        = some err →
      (register store form created_at).1 = err ∧
      (register store form created_at).2 = store) ∧
    (store.eventi.find? (fun e => e.attivo)
        = store2.eventi.find? (fun e => e.attivo) →
      ∀ err, firstValidationError (store.eventi.find? (fun e => e.attivo)) form
          = some err →
        (register store form created_at).1 = (register store2 form created_at).1) ∧
    ((register store form created_at).1 ≠ .success →
      (register store form created_at).2 = store) := by
  refine ⟨?_, ?_, register_failure_frame store form created_at⟩
  · intro err herr
    rw [register_firstValidationError store form created_at err herr]
    exact ⟨rfl, rfl⟩
  · intro heq err herr
    rw [register_firstValidationError store form created_at err herr,
      register_firstValidationError store2 form created_at err (by rw [← heq]; exact herr)]

/-- Witness for C5: with an active event, a submission whose phone is
"312" (starts with 3 but only 3 digits) and whose arrival time is the
invalid "99:99" is rejected with the phone-length error and the store
is unchanged; with phone "123456789" it is rejected with the
starts-with-3 error — in both doubly invalid cases the phone error
wins over the arrival-time error. -/
theorem c5_validation_order_witness :
    (register ⟨[⟨1, "Party", "", 0, "2025-06-01", "c", true⟩], [], 2, 1⟩
        ⟨"Mario", "Rossi", "312", "18-21", "99:99", some "on"⟩ "t").1
      = .errTelefonoLen ∧
    (register ⟨[⟨1, "Party", "", 0, "2025-06-01", "c", true⟩], [], 2, 1⟩
        ⟨"Mario", "Rossi", "312", "18-21", "99:99", some "on"⟩ "t").2
      = ⟨[⟨1, "Party", "", 0, "2025-06-01", "c", true⟩], [], 2, 1⟩ ∧
    (register ⟨[⟨1, "Party", "", 0, "2025-06-01", "c", true⟩], [], 2, 1⟩
        ⟨"Mario", "Rossi", "123456789", "18-21", "99:99", some "on"⟩ "t").1
      = .errTelefonoStart := by
  have hlen := c5_validation_order
    ⟨[⟨1, "Party", "", 0, "2025-06-01", "c", true⟩], [], 2, 1⟩
    ⟨[⟨1, "Party", "", 0, "2025-06-01", "c", true⟩], [], 2, 1⟩
    ⟨"Mario", "Rossi", "312", "18-21", "99:99", some "on"⟩ "t"
  have hstart := c5_validation_order
    ⟨[⟨1, "Party", "", 0, "2025-06-01", "c", true⟩], [], 2, 1⟩
    ⟨[⟨1, "Party", "", 0, "2025-06-01", "c", true⟩], [], 2, 1⟩
    ⟨"Mario", "Rossi", "123456789", "18-21", "99:99", some "on"⟩ "t"
  have e1 := hlen.1 .errTelefonoLen (by decide)
  have e2 := hstart.1 .errTelefonoStart (by decide)
  exact ⟨e1.1, e1.2, e2.1⟩

/- ============================================================
   C1 — acceptance characterisation of register
   ============================================================ -/

/-- C1: under the store invariants the code maintains (every stored
telefono already normalised; the AUTOINCREMENT counter fresh), a POST
registration is accepted — outcome `success`, with exactly the new row
appended — if and only if an active event exists, every required field
(nome, cognome, telefono, eta_fascia, orario_arrivo, privacy consent)
passes its validation, the normalized phone starts with '3' and has
between 9 and 15 characters, and no existing registration carries the
same (normalized phone, event id) pair; and every rejected submission
leaves the store unchanged. -/
theorem c1_register_accept_iff (store : Store) (form : RegForm) (created_at : String)
    (hstore : ∀ r ∈ store.registrazioni, normalize r.telefono = r.telefono)
    (hfresh : ∀ r ∈ store.registrazioni, r.id ≠ store.nextRegId) :
    ((register store form created_at).1 = .success ↔
      ∃ ev, store.eventi.find? (fun e => e.attivo) = some ev ∧
        pyStrip form.nome ≠ "" ∧ (pyStrip form.nome).length ≤ 100 ∧
        pyStrip form.cognome ≠ "" ∧ (pyStrip form.cognome).length ≤ 100 ∧
        pyStrip form.telefono ≠ "" ∧
        pyStrip form.eta_fascia ∈ fasce ∧
        pyStrip form.orario_arrivo ≠ "" ∧
        pyTruthyOpt form.privacy_consent = true ∧
        startsWith3 (normalize (pyStrip form.telefono)) = true ∧
        9 ≤ (normalize (pyStrip form.telefono)).length ∧
        (normalize (pyStrip form.telefono)).length ≤ 15 ∧
        validOrario (pyStrip form.orario_arrivo) = true ∧
        ¬ ∃ r ∈ store.registrazioni,
            normalize r.telefono = normalize (pyStrip form.telefono) ∧
            r.evento_id = ev.id) ∧
    ((register store form created_at).1 = .success →
      ∃ ev, store.eventi.find? (fun e => e.attivo) = some ev ∧
        (register store form created_at).2.registrazioni
          = store.registrazioni
            ++ [⟨store.nextRegId, ev.id, pyStrip form.nome, pyStrip form.cognome,
                 normalize (pyStrip form.telefono), pyStrip form.eta_fascia,
                 pyStrip form.orario_arrivo, created_at⟩]) ∧
    ((register store form created_at).1 ≠ .success →
      (register store form created_at).2 = store) := by
  rcases hprod : register store form created_at with ⟨o, st2⟩
  rcases hfind : store.eventi.find? (fun e => e.attivo) with _ | ev
  · simp only [register, hfind] at hprod
    injection hprod with ho hs
    subst ho
    subst hs
    refine ⟨iff_of_false (by simp) ?_, fun hsucc => absurd hsucc (by simp),
      fun _ => rfl⟩
    rintro ⟨ev, hev, -⟩
    rw [hfind] at hev
    exact Option.noConfusion hev
  · have hmem : ev ∈ store.eventi := List.mem_of_find?_eq_some hfind
    have hatt : (fun e : Evento => e.attivo) ev = true :=
      @List.find?_some _ (fun e => e.attivo) ev _ hfind
    simp only [register, hfind] at hprod
    by_cases h1 : pyStrip form.nome = "" ∨ (pyStrip form.nome).length > 100
    case pos =>
      rw [if_pos h1] at hprod
      injection hprod with ho hs
      subst ho; subst hs
      refine ⟨iff_of_false (by simp) ?_, fun hsucc => absurd hsucc (by simp),
        fun _ => rfl⟩
      rintro ⟨ev', hev', hn1, hn2, -⟩
      rcases h1 with h | h
      · exact hn1 h
      · omega
    rw [if_neg h1] at hprod
    by_cases h2 : pyStrip form.cognome = "" ∨ (pyStrip form.cognome).length > 100
    case pos =>
      rw [if_pos h2] at hprod
      injection hprod with ho hs
      subst ho; subst hs
      refine ⟨iff_of_false (by simp) ?_, fun hsucc => absurd hsucc (by simp),
        fun _ => rfl⟩
      rintro ⟨ev', hev', -, -, hc1, hc2, -⟩
      rcases h2 with h | h
      · exact hc1 h
      · omega
    rw [if_neg h2] at hprod
    by_cases h3 : pyStrip form.telefono = ""
    case pos =>
      rw [if_pos h3] at hprod
      injection hprod with ho hs
      subst ho; subst hs
      refine ⟨iff_of_false (by simp) ?_, fun hsucc => absurd hsucc (by simp),
        fun _ => rfl⟩
      rintro ⟨ev', hev', -, -, -, -, ht, -⟩
      exact ht h3
    rw [if_neg h3] at hprod
    by_cases h4 : pyStrip form.eta_fascia = "" ∨ pyStrip form.eta_fascia ∉ fasce
    case pos =>
      rw [if_pos h4] at hprod
      injection hprod with ho hs
      subst ho; subst hs
      refine ⟨iff_of_false (by simp) ?_, fun hsucc => absurd hsucc (by simp),
        fun _ => rfl⟩
      rintro ⟨ev', hev', -, -, -, -, -, he, -⟩
      rcases h4 with h | h
      · rw [h] at he
        exact absurd he (by decide)
      · exact h he
    rw [if_neg h4] at hprod
    by_cases h5 : pyStrip form.orario_arrivo = ""
    case pos =>
      rw [if_pos h5] at hprod
      injection hprod with ho hs
      subst ho; subst hs
      refine ⟨iff_of_false (by simp) ?_, fun hsucc => absurd hsucc (by simp),
        fun _ => rfl⟩
      rintro ⟨ev', hev', -, -, -, -, -, -, ho2, -⟩
      exact ho2 h5
    rw [if_neg h5] at hprod
    by_cases h6 : pyTruthyOpt form.privacy_consent = false
    case pos =>
      rw [if_pos h6] at hprod
      injection hprod with ho hs
      subst ho; subst hs
      refine ⟨iff_of_false (by simp) ?_, fun hsucc => absurd hsucc (by simp),
        fun _ => rfl⟩
      rintro ⟨ev', hev', -, -, -, -, -, -, -, hp, -⟩
      rw [hp] at h6
      exact Bool.noConfusion h6
    rw [if_neg h6] at hprod
    by_cases h7 : startsWith3 (normalize (pyStrip form.telefono)) = false
    case pos =>
      rw [if_pos h7] at hprod
      injection hprod with ho hs
      subst ho; subst hs
      refine ⟨iff_of_false (by simp) ?_, fun hsucc => absurd hsucc (by simp),
        fun _ => rfl⟩
      rintro ⟨ev', hev', -, -, -, -, -, -, -, -, hs3, -⟩
      rw [hs3] at h7
      exact Bool.noConfusion h7
    rw [if_neg h7] at hprod
    by_cases h8 : (normalize (pyStrip form.telefono)).length < 9
      ∨ (normalize (pyStrip form.telefono)).length > 15
    case pos =>
      rw [if_pos h8] at hprod
      injection hprod with ho hs
      subst ho; subst hs
      refine ⟨iff_of_false (by simp) ?_, fun hsucc => absurd hsucc (by simp),
        fun _ => rfl⟩
      rintro ⟨ev', hev', -, -, -, -, -, -, -, -, -, hl1, hl2, -⟩
      omega
    rw [if_neg h8] at hprod
    by_cases h9 : validOrario (pyStrip form.orario_arrivo) = false
    case pos =>
      rw [if_pos h9] at hprod
      injection hprod with ho hs
      subst ho; subst hs
      refine ⟨iff_of_false (by simp) ?_, fun hsucc => absurd hsucc (by simp),
        fun _ => rfl⟩
      rintro ⟨ev', hev', -, -, -, -, -, -, -, -, -, -, -, hvo, -⟩
      rw [hvo] at h9
      exact Bool.noConfusion h9
    rw [if_neg h9] at hprod
    by_cases h10 : store.eventi.any (fun e => e.id == ev.id && e.attivo) = false
    case pos =>
      exfalso
      have hany : store.eventi.any (fun e => e.id == ev.id && e.attivo) = true :=
        List.any_eq_true.mpr ⟨ev, hmem, by simp [hatt]⟩
      rw [h10] at hany
      exact Bool.noConfusion hany
    rw [if_neg h10] at hprod
    by_cases h11 : 0 < List.countP
        (fun r => sqlStrip r.telefono == normalize (pyStrip form.telefono)
          && r.evento_id == ev.id) store.registrazioni
    case pos =>
      rw [if_pos h11] at hprod
      injection hprod with ho hs
      subst ho; subst hs
      refine ⟨iff_of_false (by simp) ?_, fun hsucc => absurd hsucc (by simp),
        fun _ => rfl⟩
      rintro ⟨ev', hev', -, -, -, -, -, -, -, -, -, -, -, -, hnd⟩
      rw [hfind] at hev'
      injection hev' with hee
      subst hee
      obtain ⟨r, hr, htel, hev2⟩ := (countP_dup_iff store.registrazioni
        (normalize (pyStrip form.telefono)) ev.id hstore).mp h11
      exact hnd ⟨r, hr, htel, hev2⟩
    rw [if_neg h11] at hprod
    by_cases h12 : insertOk store
        { id := store.nextRegId, evento_id := ev.id, nome := pyStrip form.nome,
          cognome := pyStrip form.cognome, telefono := normalize (pyStrip form.telefono),
          eta_fascia := pyStrip form.eta_fascia, orario_arrivo := pyStrip form.orario_arrivo,
          created_at := created_at } = true
    case neg =>
      exfalso
      apply h12
      simp only [insertOk, Bool.and_eq_true]
      have h4' : pyStrip form.eta_fascia ∈ fasce := by
        push_neg at h4
        exact h4.2
      refine ⟨⟨?_, ?_⟩, ?_⟩
      · exact List.all_eq_true.mpr (fun r hr => by simpa using hfresh r hr)
      · exact decide_eq_true h4'
      · exact List.any_eq_true.mpr ⟨ev, hmem, by simp⟩
    rw [if_pos h12] at hprod
    injection hprod with ho hs
    subst ho; subst hs
    push_neg at h1 h2 h4 h8
    have hp6 : pyTruthyOpt form.privacy_consent = true := by
      revert h6
      cases pyTruthyOpt form.privacy_consent <;> simp
    have hp7 : startsWith3 (normalize (pyStrip form.telefono)) = true := by
      revert h7
      cases startsWith3 (normalize (pyStrip form.telefono)) <;> simp
    have hp9 : validOrario (pyStrip form.orario_arrivo) = true := by
      revert h9
      cases validOrario (pyStrip form.orario_arrivo) <;> simp
    refine ⟨iff_of_true rfl ⟨ev, hfind, h1.1, by omega, h2.1, by omega, h3, h4.2,
      h5, hp6, hp7, by omega, by omega, hp9, ?_⟩,
      fun _ => ⟨ev, hfind, rfl⟩, fun hne => absurd rfl hne⟩
    intro hex
    exact h11 ((countP_dup_iff store.registrazioni
      (normalize (pyStrip form.telefono)) ev.id hstore).mpr hex)

/-- Witness for C1: a store with one active event and one prior
registration (normalised phone, fresh counter); a fully valid
submission with a new phone is accepted, and the same submission with
the already-registered phone is not. -/
theorem c1_register_accept_iff_witness :
    (register
        ⟨[⟨1, "Party", "", 0, "2025-06-01", "c1", true⟩],
         [⟨1, 1, "Anna", "Bianchi", "3397654321", "21-25", "19:00", "t0"⟩], 2, 2⟩
        ⟨"Mario", "Rossi", "333 1234567", "18-21", "20:30", some "on"⟩ "t1").1
      = .success ∧
    (register
        ⟨[⟨1, "Party", "", 0, "2025-06-01", "c1", true⟩],
         [⟨1, 1, "Anna", "Bianchi", "3397654321", "21-25", "19:00", "t0"⟩], 2, 2⟩
        ⟨"Mario", "Rossi", "339 765-4321", "18-21", "20:30", some "on"⟩ "t1").1
      ≠ .success := by
  have hok := c1_register_accept_iff
    ⟨[⟨1, "Party", "", 0, "2025-06-01", "c1", true⟩],
     [⟨1, 1, "Anna", "Bianchi", "3397654321", "21-25", "19:00", "t0"⟩], 2, 2⟩
    ⟨"Mario", "Rossi", "333 1234567", "18-21", "20:30", some "on"⟩ "t1"
    (by decide) (by decide)
  have hdup := c1_register_accept_iff
    ⟨[⟨1, "Party", "", 0, "2025-06-01", "c1", true⟩],
     [⟨1, 1, "Anna", "Bianchi", "3397654321", "21-25", "19:00", "t0"⟩], 2, 2⟩
    ⟨"Mario", "Rossi", "339 765-4321", "18-21", "20:30", some "on"⟩ "t1"
    (by decide) (by decide)
  constructor
  · exact hok.1.mpr ⟨⟨1, "Party", "", 0, "2025-06-01", "c1", true⟩, by decide,
      by decide, by decide, by decide, by decide, by decide, by decide, by decide,
      by decide, by decide, by decide, by decide, by decide, by decide⟩
  · intro hsucc
    obtain ⟨ev, hev, -, -, -, -, -, -, -, -, -, -, -, -, hnd⟩ := hdup.1.mp hsucc
    have hee : ev = ⟨1, "Party", "", 0, "2025-06-01", "c1", true⟩ := by
      have : some ev = some (⟨1, "Party", "", 0, "2025-06-01", "c1", true⟩ : Evento) := by
        rw [← hev]
        decide
      exact Option.noConfusion this (fun h => h)
    subst hee
    exact hnd ⟨⟨1, 1, "Anna", "Bianchi", "3397654321", "21-25", "19:00", "t0"⟩,
      by decide, by decide, by decide⟩

end Samu
